import Mathlib

/-!
Verification development for the bisq-api-reference python examples
(`src/python-examples/bisq/rpccalls/get_bsq_swap_offers.py` and
`src/python-examples/bisq/rpccalls/send_bsq.py`), together with a model of
the minimal `RpcClient` wrapper described by the repository's design
specification (the wrapper itself has no implementation in the repository;
only the two example scripts, its would-be callers, exist).

The external gRPC world (channel, stubs, server) is represented by an
environment of response functions; each script's `main` is embedded as a
function from that environment to an observable run record: the list of
remote calls it issued (with endpoint, service, method, request message and
call metadata), the lines it printed, and any uncaught exception.
-/

namespace BisqApi

/-- Message `GetBsqSwapOffersRequest` as constructed in
`get_bsq_swap_offers.py` line 14: a single `direction` field. -/
structure GetBsqSwapOffersRequest where
  direction : String
deriving DecidableEq, Repr

/-- Message `SendBsqRequest` as constructed in `send_bsq.py` lines 14-17:
`address`, `amount` and `tx_fee_rate` fields. -/
structure SendBsqRequest where
  address : String
  amount : String
  tx_fee_rate : String
deriving DecidableEq, Repr

/-- A gRPC status error (`grpc.RpcError`): a status code and a message. -/
structure RpcError where
  code : Nat
  message : String
deriving DecidableEq, Repr

/-- The reply to `GetBsqSwapOffers`, restricted to the one field the script
reads (line 16 prints `str(response[0].bsq_swap_offers)`); the field is
modelled by its `str()` rendering. -/
structure GetBsqSwapOffersReply where
  bsq_swap_offers : String
deriving DecidableEq, Repr

/-- The reply to `SendBsq`, restricted to the one field the script reads
(line 19 prints `str(response[0].tx_info)`); the field is modelled by its
`str()` rendering. -/
structure SendBsqReply where
  tx_info : String
deriving DecidableEq, Repr

/-- gRPC call metadata: a list of key/value pairs. -/
abbrev Metadata := List (String × String)

/-- The request message carried by a remote call issued by one of the
scripts. -/
inductive RequestMsg
  | getBsqSwapOffers (r : GetBsqSwapOffersRequest)
  | sendBsq (r : SendBsqRequest)
deriving DecidableEq, Repr

/-- One remote call as observed on the wire: target endpoint, service stub,
method name, request message, and call metadata. -/
structure CallEvent where
  endpoint : String
  service : String
  method : String
  request : RequestMsg
  metadata : Metadata
deriving DecidableEq, Repr

/-- The external gRPC world: how the server answers each of the two methods
the scripts use.  An answer is either a reply message or a raised
`grpc.RpcError`. -/
structure GrpcEnv where
  offersGetBsqSwapOffers :
    GetBsqSwapOffersRequest → Metadata → Except RpcError GetBsqSwapOffersReply
  walletsSendBsq :
    SendBsqRequest → Metadata → Except RpcError SendBsqReply

/-- Observable record of one run of a script's `main`: the remote calls it
issued in order, the lines it printed, and the exception that escaped
`main`, if any. -/
structure RunResult where
  calls : List CallEvent
  printed : List String
  uncaught : Option RpcError
deriving DecidableEq, Repr

/-- Python's `str()` rendering of a `grpc.RpcError`, as an injective
function of the error's code and message. -/
def strOfRpcError (e : RpcError) : String :=
  "<_InactiveRpcError code=" ++ toString e.code ++ " details=" ++ e.message ++ ">"

/-- The endpoint both scripts pass to `grpc.insecure_channel` (line 9 of
each script): `'localhost:9998'`. -/
def channelEndpoint : String := "localhost:9998"

/-- The credential both scripts use (line 11 of each script):
`api_password: str = 'xyz'` — the interactive `getpass` prompt is
commented out. -/
def api_password : String := "xyz"

/-- The metadata both scripts attach to their one call
(`metadata=[('password', api_password)]`, line 15 of
`get_bsq_swap_offers.py`, line 18 of `send_bsq.py`). -/
def passwordMetadata : Metadata := [("password", api_password)]

/-- The request literal of `get_bsq_swap_offers.py` line 14:
`GetBsqSwapOffersRequest(direction='SELL')`. -/
def getBsqSwapOffersRequestLit : GetBsqSwapOffersRequest :=
  { direction := "SELL" }

/-- The request literal of `send_bsq.py` lines 14-17:
`SendBsqRequest(address='Bbcrt1q9elrmtxtzpwt25zq2pmeeu6qk8029w404ad0xn',
amount='10.00', tx_fee_rate='10')`. -/
def sendBsqRequestLit : SendBsqRequest :=
  { address := "Bbcrt1q9elrmtxtzpwt25zq2pmeeu6qk8029w404ad0xn"
    amount := "10.00"
    tx_fee_rate := "10" }

/-- The call `get_bsq_swap_offers.py` puts on the wire (lines 9-15): the
`GetBsqSwapOffers` method of the `Offers` stub on the channel to
`localhost:9998`, with the `SELL` request and the password metadata. -/
def getBsqSwapOffersCallEvent : CallEvent :=
  { endpoint := channelEndpoint, service := "Offers",
    method := "GetBsqSwapOffers",
    request := .getBsqSwapOffers getBsqSwapOffersRequestLit,
    metadata := passwordMetadata }

/-- The call `send_bsq.py` puts on the wire (lines 9-18): the `SendBsq`
method of the `Wallets` stub on the channel to `localhost:9998`, with the
three-field request and the password metadata. -/
def sendBsqCallEvent : CallEvent :=
  { endpoint := channelEndpoint, service := "Wallets", method := "SendBsq",
    request := .sendBsq sendBsqRequestLit, metadata := passwordMetadata }

/-- Embedding of `main` of `get_bsq_swap_offers.py`.  Line by line:
line 9 opens an insecure channel to `'localhost:9998'`; line 10 makes an
`OffersStub` on it; line 11 sets `api_password = 'xyz'` (the `getpass`
prompt is commented out); lines 13-15 call `GetBsqSwapOffers.with_call`
with `GetBsqSwapOffersRequest(direction='SELL')` and
`metadata=[('password', api_password)]`; line 16 prints
`'Response: ' + str(response[0].bsq_swap_offers)`; lines 17-18 catch
`grpc.RpcError` and print `('gRPC API Exception: %s', rpc_error)` —
Python's `print` with two arguments joins them with a space, so the `%s`
is not interpolated.  In both branches the exception is absorbed and
`main` returns normally, so `uncaught := none`. -/
def getBsqSwapOffersMain (env : GrpcEnv) : RunResult :=
  match env.offersGetBsqSwapOffers getBsqSwapOffersRequestLit passwordMetadata with
  | .ok response =>
      { calls := [getBsqSwapOffersCallEvent]
        printed := ["Response: " ++ response.bsq_swap_offers]
        uncaught := none }
  | .error rpc_error =>
      { calls := [getBsqSwapOffersCallEvent]
        printed := ["gRPC API Exception: %s " ++ strOfRpcError rpc_error]
        uncaught := none }

/-- Embedding of `main` of `send_bsq.py`.  Line by line: line 9 opens an
insecure channel to `'localhost:9998'`; line 10 makes a `WalletsStub` on
it; line 11 sets `api_password = 'xyz'` (the `getpass` prompt is commented
out); lines 13-18 call `SendBsq.with_call` with
`SendBsqRequest(address='Bbcrt1q9elrmtxtzpwt25zq2pmeeu6qk8029w404ad0xn',
amount='10.00', tx_fee_rate='10')` and
`metadata=[('password', api_password)]`; line 19 prints
`'Response: ' + str(response[0].tx_info)`; lines 20-21 catch
`grpc.RpcError` and print `('gRPC API Exception: %s', rpc_error)`.  In
both branches the exception is absorbed and `main` returns normally, so
`uncaught := none`. -/
def sendBsqMain (env : GrpcEnv) : RunResult :=
  match env.walletsSendBsq sendBsqRequestLit passwordMetadata with
  | .ok response =>
      { calls := [sendBsqCallEvent]
        printed := ["Response: " ++ response.tx_info]
        uncaught := none }
  | .error rpc_error =>
      { calls := [sendBsqCallEvent]
        printed := ["gRPC API Exception: %s " ++ strOfRpcError rpc_error]
        uncaught := none }

/-- A concrete environment in which both methods succeed. -/
def okEnv : GrpcEnv :=
  { offersGetBsqSwapOffers := fun _ _ => .ok { bsq_swap_offers := "offers0" }
    walletsSendBsq := fun _ _ => .ok { tx_info := "txinfo0" } }

/-- A concrete environment in which both methods fail with status 2
(`UNKNOWN`). -/
def errEnv : GrpcEnv :=
  { offersGetBsqSwapOffers := fun _ _ => .error { code := 2, message := "unknown" }
    walletsSendBsq := fun _ _ => .error { code := 2, message := "unknown" } }

namespace RpcClient

/-- Modelled from the spec: request/response payloads are "opaque payloads
defined by an external contract"; the client "does not interpret their
fields beyond passing them through".  Represented as raw bytes. -/
abbrev Payload := List Nat

/-- Modelled from the spec: the external world the RpcClient talks to —
whether an endpoint is reachable, and how the remote service answers a
unary call (endpoint, method name, request payload, call metadata),
either with a response payload or with a failure status. -/
structure Network where
  reachable : String → Bool
  respond : String → String → Payload → Metadata → Except RpcError Payload

/-- Modelled from the spec: `connect` "fails with `ConnectionError` if the
endpoint is unreachable". -/
inductive ConnError
  | connectionError
deriving DecidableEq, Repr

/-- Modelled from the spec: a `Connection` to an endpoint, "immutable once
the client is constructed". -/
structure Connection where
  endpoint : String
deriving DecidableEq, Repr

/-- Modelled from the spec: `connect(endpoint) -> Connection` "opens a
channel to the given endpoint. No retries, no TLS negotiation. Fails with
`ConnectionError` if the endpoint is unreachable." -/
def connect (net : Network) (endpoint : String) : Except ConnError Connection :=
  if net.reachable endpoint then .ok { endpoint := endpoint }
  else .error .connectionError

/-- Modelled from the spec:
`call(connection, methodName, request, credential) -> Response` "sends one
unary request, attaching the credential as call metadata" (under the key
`"password"`, per the design notes). "Fails with `RpcError{code, message}`
on any transport or server-side failure; does not retry and does not
interpret the error further." -/
def call (net : Network) (conn : Connection) (methodName : String)
    (request : Payload) (credential : String) : Except RpcError Payload :=
  net.respond conn.endpoint methodName request [("password", credential)]

/-- One observable event of an RpcClient invocation: acquiring the
connection, issuing a remote call, or releasing the connection. -/
inductive REvent
  | acquire (endpoint : String)
  | remoteCall (endpoint methodName : String) (request : Payload) (metadata : Metadata)
  | release (endpoint : String)
deriving DecidableEq, Repr

/-- Outcome of one RpcClient invocation. -/
inductive InvokeOutcome
  | connectFailed (e : ConnError)
  | rpcFailed (e : RpcError)
  | success (response : Payload)
deriving DecidableEq, Repr

/-- Trace and outcome of one RpcClient invocation. -/
structure InvokeResult where
  trace : List REvent
  outcome : InvokeOutcome
deriving DecidableEq, Repr

/-- Modelled from the spec: one whole invocation — "a single blocking round
trip with no state carried to the next"; the one connection "is opened and
closed within the scope of the single call (scoped acquisition with
guaranteed release on all exit paths, including error paths)"; if
`connect` fails, no call is attempted. -/
def invoke (net : Network) (endpoint methodName : String)
    (request : Payload) (credential : String) : InvokeResult :=
  match connect net endpoint with
  | .error e => { trace := [], outcome := .connectFailed e }
  | .ok conn =>
      match call net conn methodName request credential with
      | .ok response =>
          { trace := [.acquire endpoint,
                      .remoteCall endpoint methodName request [("password", credential)],
                      .release endpoint]
            outcome := .success response }
      | .error e =>
          { trace := [.acquire endpoint,
                      .remoteCall endpoint methodName request [("password", credential)],
                      .release endpoint]
            outcome := .rpcFailed e }

/-- Whether a trace event is a remote call. -/
def REvent.isRemoteCall : REvent → Bool
  | .remoteCall _ _ _ _ => true
  | _ => false

/-- Whether a trace event is a connection acquisition. -/
def REvent.isAcquire : REvent → Bool
  | .acquire _ => true
  | _ => false

/-- Whether a trace event is a connection release. -/
def REvent.isRelease : REvent → Bool
  | .release _ => true
  | _ => false

/-- A concrete network for witnesses: endpoint `"localhost:9998"` is
reachable and every call succeeds, echoing the request payload. -/
def echoNet : Network :=
  { reachable := fun e => e == "localhost:9998"
    respond := fun _ _ req _ => .ok req }

/-- A concrete network for witnesses: endpoint `"localhost:9998"` is
reachable and every call fails with status 14 (`UNAVAILABLE`). -/
def downServiceNet : Network :=
  { reachable := fun e => e == "localhost:9998"
    respond := fun _ _ _ _ => .error { code := 14, message := "io exception" } }

/-- A concrete network for witnesses: no endpoint is reachable. -/
def unreachableNet : Network :=
  { reachable := fun _ => false
    respond := fun _ _ _ _ => .error { code := 14, message := "io exception" } }

end RpcClient

/-- C3 (on the spec-modelled RpcClient): for every valid connection (the
endpoint is reachable) and every remote call answered with an error
status `e`, the invocation surfaces exactly one `RpcError` carrying the
remote status code and message — its outcome is `rpcFailed e` and nothing
else — and, the outcome being an error, it yields no response payload;
exactly one remote call appears in the trace. -/
theorem call_error_status_surfaces_single_rpcError :
    ∀ (net : RpcClient.Network) (endpoint m : String)
      (req : RpcClient.Payload) (cred : String) (e : RpcError),
      net.reachable endpoint = true →
      net.respond endpoint m req [("password", cred)] = .error e →
      (RpcClient.invoke net endpoint m req cred).outcome
        = .rpcFailed e ∧
      ((RpcClient.invoke net endpoint m req cred).trace.filter
        RpcClient.REvent.isRemoteCall).length = 1 := by
  intro net endpoint m req cred e hreach hresp
  refine ⟨?_, ?_⟩ <;>
    simp [RpcClient.invoke, RpcClient.connect, RpcClient.call, hreach, hresp,
      RpcClient.REvent.isRemoteCall]

/-- C3 witness: on the concrete network whose service fails every call
with status 14, an invocation to the reachable endpoint fails with that
status and issues exactly one remote call. -/
theorem call_error_status_witness :
    (RpcClient.invoke RpcClient.downServiceNet "localhost:9998" "SendBsq"
      [0] "xyz").outcome
      = .rpcFailed { code := 14, message := "io exception" } ∧
    ((RpcClient.invoke RpcClient.downServiceNet "localhost:9998" "SendBsq"
      [0] "xyz").trace.filter RpcClient.REvent.isRemoteCall).length = 1 :=
  call_error_status_surfaces_single_rpcError RpcClient.downServiceNet
    "localhost:9998" "SendBsq" [0] "xyz"
    { code := 14, message := "io exception" } rfl rfl

/-- C4 (on the spec-modelled RpcClient): for every valid connection and
every successful remote call, the invocation returns the response
payload unmodified — the byte list it yields is exactly the byte list
the server returned. -/
theorem call_success_returns_payload_unmodified :
    ∀ (net : RpcClient.Network) (endpoint m : String)
      (req : RpcClient.Payload) (cred : String) (p : RpcClient.Payload),
      net.reachable endpoint = true →
      net.respond endpoint m req [("password", cred)] = .ok p →
      (RpcClient.invoke net endpoint m req cred).outcome = .success p := by
  intro net endpoint m req cred p hreach hresp
  simp only [RpcClient.invoke, RpcClient.connect, RpcClient.call, hreach,
    if_true, hresp]

/-- C4 witness: on the echoing network, an invocation with payload
`[7, 8, 9]` succeeds with exactly the payload the server returned. -/
theorem call_success_passthrough_witness :
    (RpcClient.invoke RpcClient.echoNet "localhost:9998" "GetBsqSwapOffers"
      [7, 8, 9] "xyz").outcome = .success [7, 8, 9] :=
  call_success_returns_payload_unmodified RpcClient.echoNet
    "localhost:9998" "GetBsqSwapOffers" [7, 8, 9] "xyz" [7, 8, 9] rfl rfl

/-- C5 (on the spec-modelled RpcClient): for every unreachable endpoint,
`connect` fails with `ConnectionError`, the whole invocation reports that
connection failure, and no remote call is attempted (the trace contains
no remote-call event). -/
theorem connect_unreachable_fails_and_no_call_attempted :
    ∀ (net : RpcClient.Network) (endpoint m : String)
      (req : RpcClient.Payload) (cred : String),
      net.reachable endpoint = false →
      RpcClient.connect net endpoint = .error .connectionError ∧
      (RpcClient.invoke net endpoint m req cred).outcome
        = .connectFailed .connectionError ∧
      (RpcClient.invoke net endpoint m req cred).trace.filter
        RpcClient.REvent.isRemoteCall = [] := by
  intro net endpoint m req cred hreach
  simp [RpcClient.invoke, RpcClient.connect, hreach]

/-- C5 witness: on the network where nothing is reachable, connecting to
`localhost:9998` fails with `ConnectionError` and the invocation's trace
holds no remote call. -/
theorem connect_unreachable_witness :
    RpcClient.connect RpcClient.unreachableNet "localhost:9998"
      = .error .connectionError ∧
    (RpcClient.invoke RpcClient.unreachableNet "localhost:9998" "SendBsq"
      [0] "xyz").outcome = .connectFailed .connectionError ∧
    (RpcClient.invoke RpcClient.unreachableNet "localhost:9998" "SendBsq"
      [0] "xyz").trace.filter RpcClient.REvent.isRemoteCall = [] :=
  connect_unreachable_fails_and_no_call_attempted RpcClient.unreachableNet
    "localhost:9998" "SendBsq" [0] "xyz" rfl

/-- C8 (on the spec-modelled RpcClient): the one connection is opened and
closed within the scope of the single invocation: on every exit path the
number of acquisitions equals the number of releases, and whenever the
connection was acquired — including the error path where the remote call
fails — the last event of the trace is its release. -/
theorem connection_released_on_all_exit_paths :
    ∀ (net : RpcClient.Network) (endpoint m : String)
      (req : RpcClient.Payload) (cred : String),
      ((RpcClient.invoke net endpoint m req cred).trace.filter
        RpcClient.REvent.isAcquire).length
        = ((RpcClient.invoke net endpoint m req cred).trace.filter
            RpcClient.REvent.isRelease).length ∧
      (RpcClient.REvent.acquire endpoint
          ∈ (RpcClient.invoke net endpoint m req cred).trace →
        (RpcClient.invoke net endpoint m req cred).trace.getLast?
          = some (.release endpoint)) := by
  intro net endpoint m req cred
  cases hreach : net.reachable endpoint
  · simp [RpcClient.invoke, RpcClient.connect, hreach]
  · cases hresp : net.respond endpoint m req [("password", cred)] <;>
      · simp only [RpcClient.invoke, RpcClient.connect, RpcClient.call,
          hreach, if_true, hresp]
        exact ⟨rfl, fun _ => rfl⟩

/-- C8 witness: on the concrete network whose remote call fails — the
error exit path — the invocation acquires and releases the connection in
balance, and the last trace event is the release. -/
theorem connection_released_witness :
    ((RpcClient.invoke RpcClient.downServiceNet "localhost:9998" "SendBsq"
      [0] "xyz").trace.filter RpcClient.REvent.isAcquire).length
      = ((RpcClient.invoke RpcClient.downServiceNet "localhost:9998"
          "SendBsq" [0] "xyz").trace.filter
            RpcClient.REvent.isRelease).length ∧
    (RpcClient.invoke RpcClient.downServiceNet "localhost:9998" "SendBsq"
      [0] "xyz").trace.getLast? = some (.release "localhost:9998") :=
  ⟨(connection_released_on_all_exit_paths RpcClient.downServiceNet
      "localhost:9998" "SendBsq" [0] "xyz").1,
   (connection_released_on_all_exit_paths RpcClient.downServiceNet
      "localhost:9998" "SendBsq" [0] "xyz").2 (by decide)⟩

/-- C1: the send-BSQ script transmits the three request fields exactly as
written in the source — address
`'Bbcrt1q9elrmtxtzpwt25zq2pmeeu6qk8029w404ad0xn'`, amount `'10.00'`,
`tx_fee_rate` `'10'` — unchanged in the `SendBsqRequest` it issues, and
whenever the server answers successfully it outputs the returned
transaction-info payload unmodified. -/
theorem sendBsq_fields_unchanged_and_txInfo_passthrough :
    ∀ env : GrpcEnv,
      (sendBsqMain env).calls =
        [{ endpoint := "localhost:9998", service := "Wallets",
           method := "SendBsq",
           request := .sendBsq
             { address := "Bbcrt1q9elrmtxtzpwt25zq2pmeeu6qk8029w404ad0xn",
               amount := "10.00", tx_fee_rate := "10" },
           metadata := [("password", "xyz")] }] ∧
      ∀ reply : SendBsqReply,
        env.walletsSendBsq sendBsqRequestLit passwordMetadata = .ok reply →
          (sendBsqMain env).printed = ["Response: " ++ reply.tx_info] := by
  intro env
  constructor
  · cases h : env.walletsSendBsq sendBsqRequestLit passwordMetadata <;>
      · simp only [sendBsqMain, h]
        rfl
  · intro reply h
    simp [sendBsqMain, h]

/-- C1 witness: in the concrete environment where the server answers
`tx_info = "txinfo0"`, the send-BSQ script issues exactly the hardcoded
request and prints the returned payload. -/
theorem sendBsq_fields_unchanged_witness :
    (sendBsqMain okEnv).printed = ["Response: " ++ "txinfo0"] :=
  (sendBsq_fields_unchanged_and_txInfo_passthrough okEnv).2
    { tx_info := "txinfo0" } rfl

/-- C2: the list-offers script issues the direction value `'SELL'`
unchanged to the remote `GetBsqSwapOffers` call, whatever the environment
does; no input field is transformed before transmission. -/
theorem getBsqSwapOffers_direction_unchanged :
    ∀ env : GrpcEnv,
      (getBsqSwapOffersMain env).calls =
        [{ endpoint := "localhost:9998", service := "Offers",
           method := "GetBsqSwapOffers",
           request := .getBsqSwapOffers { direction := "SELL" },
           metadata := [("password", "xyz")] }] := by
  intro env
  cases h : env.offersGetBsqSwapOffers getBsqSwapOffersRequestLit passwordMetadata <;>
    · simp only [getBsqSwapOffersMain, h]
      rfl

/-- C6: in every environment — in particular on any transport or
server-side failure — each script issues exactly one remote call, so a
failed call is never re-issued; and when the remote call fails with
`RpcError` `e`, the failure the script observes and reports carries
exactly `e`'s code and message (it prints `e`'s rendering and nothing
else). -/
theorem scripts_single_call_never_retry :
    ∀ env : GrpcEnv,
      (getBsqSwapOffersMain env).calls.length = 1 ∧
      (sendBsqMain env).calls.length = 1 ∧
      ∀ e : RpcError,
        env.offersGetBsqSwapOffers getBsqSwapOffersRequestLit passwordMetadata
          = .error e →
        (getBsqSwapOffersMain env).printed
          = ["gRPC API Exception: %s " ++ strOfRpcError e] := by
  intro env
  refine ⟨?_, ?_, ?_⟩
  · cases h : env.offersGetBsqSwapOffers getBsqSwapOffersRequestLit passwordMetadata <;>
      simp [getBsqSwapOffersMain, h]
  · cases h : env.walletsSendBsq sendBsqRequestLit passwordMetadata <;>
      simp [sendBsqMain, h]
  · intro e h
    simp [getBsqSwapOffersMain, h]

/-- C6 witness: in the concrete environment where both methods fail with
status 2, each script still makes exactly one call, and the diagnostic
carries the status-2 error. -/
theorem scripts_single_call_never_retry_witness :
    (getBsqSwapOffersMain errEnv).calls.length = 1 ∧
    (sendBsqMain errEnv).calls.length = 1 ∧
    (getBsqSwapOffersMain errEnv).printed
      = ["gRPC API Exception: %s "
          ++ strOfRpcError { code := 2, message := "unknown" }] :=
  ⟨(scripts_single_call_never_retry errEnv).1,
   (scripts_single_call_never_retry errEnv).2.1,
   (scripts_single_call_never_retry errEnv).2.2
     { code := 2, message := "unknown" } rfl⟩

/-- C7: every remote call issued by either script carries the caller's
credential string as call metadata under the key `'password'`: the
metadata of every call event of either run is exactly
`[("password", "xyz")]`. -/
theorem every_call_carries_password_metadata :
    ∀ env : GrpcEnv, ∀ c : CallEvent,
      (c ∈ (getBsqSwapOffersMain env).calls ∨ c ∈ (sendBsqMain env).calls) →
      c.metadata = [("password", api_password)] := by
  intro env c hmem
  rcases hmem with h | h
  · cases hr : env.offersGetBsqSwapOffers getBsqSwapOffersRequestLit passwordMetadata <;>
      · rw [getBsqSwapOffersMain, hr] at h
        simp at h
        subst h
        rfl
  · cases hr : env.walletsSendBsq sendBsqRequestLit passwordMetadata <;>
      · rw [sendBsqMain, hr] at h
        simp at h
        subst h
        rfl

/-- C7 witness: the one call of the list-offers run in the all-success
environment indeed carries the password metadata. -/
theorem every_call_carries_password_metadata_witness :
    getBsqSwapOffersCallEvent.metadata = [("password", api_password)] :=
  every_call_carries_password_metadata okEnv getBsqSwapOffersCallEvent
    (Or.inl (by simp [getBsqSwapOffersMain, okEnv]))

/-- C9: whenever the remote call raises `grpc.RpcError`, `main` of either
script catches it, prints a single diagnostic line containing the error's
rendering, and returns normally — no `RpcError` escapes `main` (and on
success nothing escapes either). -/
theorem rpcError_caught_and_main_returns_normally :
    ∀ env : GrpcEnv,
      (getBsqSwapOffersMain env).uncaught = none ∧
      (sendBsqMain env).uncaught = none ∧
      (∀ e : RpcError,
        env.offersGetBsqSwapOffers getBsqSwapOffersRequestLit passwordMetadata
          = .error e →
        (getBsqSwapOffersMain env).printed
          = ["gRPC API Exception: %s " ++ strOfRpcError e]) ∧
      (∀ e : RpcError,
        env.walletsSendBsq sendBsqRequestLit passwordMetadata = .error e →
        (sendBsqMain env).printed
          = ["gRPC API Exception: %s " ++ strOfRpcError e]) := by
  intro env
  refine ⟨?_, ?_, ?_, ?_⟩
  · cases h : env.offersGetBsqSwapOffers getBsqSwapOffersRequestLit passwordMetadata <;>
      simp [getBsqSwapOffersMain, h]
  · cases h : env.walletsSendBsq sendBsqRequestLit passwordMetadata <;>
      simp [sendBsqMain, h]
  · intro e h
    simp [getBsqSwapOffersMain, h]
  · intro e h
    simp [sendBsqMain, h]

/-- C9 witness: in the concrete all-failing environment, both scripts
return normally and print the diagnostic carrying the error. -/
theorem rpcError_caught_witness :
    (getBsqSwapOffersMain errEnv).uncaught = none ∧
    (sendBsqMain errEnv).printed
      = ["gRPC API Exception: %s "
          ++ strOfRpcError { code := 2, message := "unknown" }] :=
  ⟨(rpcError_caught_and_main_returns_normally errEnv).1,
   (rpcError_caught_and_main_returns_normally errEnv).2.2.2
     { code := 2, message := "unknown" } rfl⟩

/-- C10: each script's outbound behaviour is deterministic and independent
of the environment: any two runs issue the same calls — to endpoint
`localhost:9998`, with credential `xyz` and the same hardcoded request
fields — since every parameter is a literal and the interactive password
prompt is commented out. -/
theorem scripts_deterministic_hardcoded_request :
    ∀ env₁ env₂ : GrpcEnv,
      (getBsqSwapOffersMain env₁).calls = (getBsqSwapOffersMain env₂).calls ∧
      (sendBsqMain env₁).calls = (sendBsqMain env₂).calls ∧
      (getBsqSwapOffersMain env₁).calls = [getBsqSwapOffersCallEvent] ∧
      (sendBsqMain env₁).calls = [sendBsqCallEvent] ∧
      getBsqSwapOffersCallEvent.endpoint = "localhost:9998" ∧
      sendBsqCallEvent.endpoint = "localhost:9998" ∧
      getBsqSwapOffersCallEvent.metadata = [("password", "xyz")] ∧
      sendBsqCallEvent.metadata = [("password", "xyz")] := by
  intro env₁ env₂
  have c₁ : ∀ env : GrpcEnv,
      (getBsqSwapOffersMain env).calls = [getBsqSwapOffersCallEvent] := by
    intro env
    cases h : env.offersGetBsqSwapOffers getBsqSwapOffersRequestLit passwordMetadata <;>
      simp [getBsqSwapOffersMain, h]
  have c₂ : ∀ env : GrpcEnv,
      (sendBsqMain env).calls = [sendBsqCallEvent] := by
    intro env
    cases h : env.walletsSendBsq sendBsqRequestLit passwordMetadata <;>
      simp [sendBsqMain, h]
  exact ⟨(c₁ env₁).trans (c₁ env₂).symm, (c₂ env₁).trans (c₂ env₂).symm,
    c₁ env₁, c₂ env₁, rfl, rfl, rfl, rfl⟩

end BisqApi
